import Mathlib

/-!
Verification development for the deep-research orchestration script
`deep_research_groqai.py`.  The Python source is shallowly embedded:

* Python strings are `String`, dictionary fields that may be absent are
  `Option String`, and Python truthiness on strings (`x or y`) is modelled
  by `orElseStr`.
* `str.strip()` is `pyStrip` (drop whitespace from both ends of the
  character list), `s[:n]` on strings is `pyTake`, and list slicing
  `xs[:limit]` with a possibly negative Python `limit` is `pySliceTo`.
* `str.replace(' ', '_')` (a single-character pattern, so a character-wise
  substitution) is `replaceSpaces`.
* The two external services are parameters of the flow: the Firecrawl
  deep-research call is an `Except String FirecrawlResponse` value (an
  exception with its message, or a response object), and the Groq chat
  completion endpoint is a function `ChatRequest → ChatResponse`.
* The linear Streamlit run triggered by the button is `mainFlow`; it
  returns the final control-flow outcome together with a `Trace` recording
  the warnings shown, the research queries issued and the chat requests
  sent, so that claims about "no network call is made" are expressible.
-/

set_option maxRecDepth 16384

namespace DeepResearchGroq

/-- Embedding of Python `str.strip()`: remove leading and trailing
whitespace characters. -/
def pyStrip (s : String) : String :=
  String.mk (((s.data.dropWhile Char.isWhitespace).reverse.dropWhile
    Char.isWhitespace).reverse)

/-- Embedding of Python string slicing `s[:n]` for `n ≥ 0` (counted in
code points). -/
def pyTake (s : String) (n : Nat) : String :=
  String.mk (s.data.take n)

/-- Embedding of Python list slicing `xs[:n]` for an arbitrary integer
`n`: a negative `n` counts from the end. -/
def pySliceTo (l : List α) (n : Int) : List α :=
  if 0 ≤ n then l.take n.toNat else l.take (l.length - (-n).toNat)

/-- Embedding of Python `a or b` where `a` is an optional string (a
`dict.get` result): `None` and the empty string are falsy. -/
def orElseStr : Option String → String → String
  | some s, d => if s = "" then d else s
  | none, d => d

/-- Embedding of Python `topic.replace(' ', '_')`: the pattern is a single
character, so the call substitutes every space character. -/
def replaceSpaces (s : String) : String :=
  String.mk (s.data.map fun c => if c = ' ' then '_' else c)

/-- A source record returned by Firecrawl: a dictionary whose fields may
be absent (`none`) or present (possibly the empty string). -/
structure SourceRecord where
  title : Option String := none
  name : Option String := none
  url : Option String := none
  link : Option String := none
  summary : Option String := none
  content : Option String := none
deriving DecidableEq

/-- `s.get("url") or s.get("link") or ""` from `_format_sources_for_prompt`. -/
def renderUrl (s : SourceRecord) : String :=
  orElseStr s.url (orElseStr s.link "")

/-- `s.get("title") or s.get("name") or "Untitled"` from
`_format_sources_for_prompt`. -/
def renderTitle (s : SourceRecord) : String :=
  orElseStr s.title (orElseStr s.name "Untitled")

/-- `s.get("summary") or s.get("content") or ""` from
`_format_sources_for_prompt`, before stripping. -/
def rawSummary (s : SourceRecord) : String :=
  orElseStr s.summary (orElseStr s.content "")

/-- The summary as rendered by `_format_sources_for_prompt`:
`summary = summary.strip()`, then `if len(summary) > 400:
summary = summary[:400] + "…"`. -/
def renderedSummary (s : SourceRecord) : String :=
  if 400 < (pyStrip (rawSummary s)).length then
    pyTake (pyStrip (rawSummary s)) 400 ++ "…"
  else
    pyStrip (rawSummary s)

/-- One formatted line block of `_format_sources_for_prompt`:
`f"\x7bi\x7d. \x7btitle\x7d\n   URL: \x7burl\x7d\n   Summary: \x7bsummary\x7d"`. -/
def entry (i : Nat) (s : SourceRecord) : String :=
  toString i ++ ". " ++ renderTitle s ++ "\n   URL: " ++ renderUrl s ++
    "\n   Summary: " ++ renderedSummary s

/-- The loop `for i, s in enumerate(sources[:limit], start=1)` collecting
the formatted lines. -/
def numberEntries : Nat → List SourceRecord → List String
  | _, [] => []
  | i, s :: rest => entry i s :: numberEntries (i + 1) rest

/-- Embedding of `_format_sources_for_prompt(sources, limit=12)`. -/
def _format_sources_for_prompt (sources : List SourceRecord)
    (limit : Int := 12) : String :=
  if sources.isEmpty then "No sources."
  else String.intercalate "\n\n" (numberEntries 1 (pySliceTo sources limit))

/-- The `data` dictionary of a Firecrawl deep-research response; both
fields are read with `.get` and a default. -/
structure FirecrawlData where
  finalAnalysis : Option String := none
  sources : Option (List SourceRecord) := none

/-- A Firecrawl deep-research response: `results.get("data", \x7b\x7d)`. -/
structure FirecrawlResponse where
  data : Option FirecrawlData := none

/-- The dictionary returned by `run_deep_research`. -/
structure ResearchResult where
  success : Bool
  error : Option String
  final_analysis : String
  sources : List SourceRecord
deriving DecidableEq

/-- Embedding of `run_deep_research`: the external service call either
returns a response or raises an exception carrying a message; on
exception the function returns the failure dictionary. -/
def run_deep_research (service : Except String FirecrawlResponse) :
    ResearchResult :=
  match service with
  | Except.ok results =>
      { success := true
        error := none
        final_analysis := (results.data.getD {}).finalAnalysis.getD ""
        sources := (results.data.getD {}).sources.getD [] }
  | Except.error e =>
      { success := false, error := some e, final_analysis := "", sources := [] }

/-- A chat message dictionary `\x7b"role": ..., "content": ...\x7d`. -/
structure ChatMessage where
  role : String
  content : String
deriving DecidableEq

/-- One element of `resp.choices`. -/
structure Choice where
  message : ChatMessage
deriving DecidableEq

/-- A Groq chat-completion response. -/
structure ChatResponse where
  choices : List Choice
deriving DecidableEq

/-- The request assembled by `client.chat.completions.create(...)`. -/
structure ChatRequest where
  model : String
  temperature : Rat
  messages : List ChatMessage
deriving DecidableEq

/-- The request body built inside `groq_chat`. -/
def groqRequest (model system user : String) (temperature : Rat) :
    ChatRequest :=
  { model := model
    temperature := temperature
    messages := [{ role := "system", content := system },
                 { role := "user", content := user }] }

/-- Embedding of `groq_chat`: send the two-message request and return the
first choice's message content (`none` models the index error on an empty
choice list). -/
def groq_chat (service : ChatRequest → ChatResponse)
    (model system user : String) (temperature : Rat) : Option String :=
  ((service (groqRequest model system user temperature)).choices.head?).map
    fun c => c.message.content

/-- Warning text shown when the Groq key is missing. -/
def groqKeyWarning : String := "Please provide your Groq API key in the sidebar."

/-- Warning text shown when the Firecrawl key is missing. -/
def firecrawlKeyWarning : String :=
  "Please provide your Firecrawl API key in the sidebar."

/-- Embedding of `_require_keys`, returning the boolean result together
with the warnings it displays (`not key` is true exactly on the empty
string). -/
def _require_keys (groq_api_key firecrawl_api_key : String) :
    Bool × List String :=
  if groq_api_key = "" then (false, [groqKeyWarning])
  else if firecrawl_api_key = "" then (false, [firecrawlKeyWarning])
  else (true, [])

/-- System prompt of the initial-report step (step 2). -/
def systemPrompt1 : String :=
  "You are a careful research assistant. Write a concise, well-structured report " ++
  "with headings, bullet points, and short paragraphs. Include citations as numbered " ++
  "[n] markers mapped to the provided source list. If something is uncertain, state so."

/-- User prompt of the initial-report step (step 2). -/
def userPrompt1 (topic formatted_sources : String) : String :=
  "TOPIC: " ++ topic ++ "\n\n" ++
  "SOURCES:\n" ++ formatted_sources ++ "\n\n" ++
  "Write a report (600–1000 words) covering: key points, context/background, current developments, " ++
  "risks/limitations, and a short FAQ. Use [n] citation markers that refer to the numbered sources above."

/-- System prompt of the enhancement step (step 3). -/
def systemPrompt2 : String :=
  "You are an expert content enhancer. Improve clarity, add examples, brief case studies, " ++
  "and practical takeaways for different stakeholders. Keep original structure but expand with useful detail. " ++
  "Do not invent citations; keep the same [n] mapping."

/-- User prompt of the enhancement step (step 3). -/
def userPrompt2 (initial_report : String) : String :=
  "Enhance the following report. Preserve headings and citation markers.\n\n" ++
    initial_report

/-- Temperature of the initial-report call, the rational value of the
float literal `0.2` (given in lowest terms so that it is a plain
constructor application). -/
def temperature1 : Rat := ⟨1, 5, by decide, by decide⟩

/-- Temperature of the enhancement call, the rational value of the float
literal `0.3`. -/
def temperature2 : Rat := ⟨3, 10, by decide, by decide⟩

/-- Arguments of the `st.download_button` call. -/
structure Download where
  data : String
  file_name : String
  mime : String
deriving DecidableEq

/-- Observable actions of one run: warnings shown, queries sent to the
research service, requests sent to the completion service. -/
structure Trace where
  warnings : List String
  researchQueries : List String
  chatRequests : List ChatRequest
deriving DecidableEq

/-- How the button-triggered run ends. -/
inductive FlowResult where
  | stoppedMissingKeys : FlowResult
  | stoppedResearchFailure : FlowResult
  | crashed : FlowResult
  | finished : String → Download → FlowResult
deriving DecidableEq

/-- Ambient state of one run: the two sidebar keys, the topic, the chosen
model, and the two external services. -/
structure FlowEnv where
  groq_api_key : String
  firecrawl_api_key : String
  research_topic : String
  model : String
  research_service : Except String FirecrawlResponse
  chat_service : ChatRequest → ChatResponse

/-- Embedding of the `if st.button("Start Research", ...)` block: key
check, research fetch, source formatting, two chained Groq calls, and the
download button, with a trace of the externally visible actions. -/
def mainFlow (env : FlowEnv) : FlowResult × Trace :=
  let rk := _require_keys env.groq_api_key env.firecrawl_api_key
  if rk.1 = false then
    (FlowResult.stoppedMissingKeys,
     { warnings := rk.2, researchQueries := [], chatRequests := [] })
  else
    let research := run_deep_research env.research_service
    if research.success = false then
      (FlowResult.stoppedResearchFailure,
       { warnings := rk.2, researchQueries := [env.research_topic],
         chatRequests := [] })
    else
      let formatted_sources := _format_sources_for_prompt research.sources
      let user1 := userPrompt1 env.research_topic formatted_sources
      let req1 := groqRequest env.model systemPrompt1 user1 temperature1
      match groq_chat env.chat_service env.model systemPrompt1 user1 temperature1 with
      | none =>
          (FlowResult.crashed,
           { warnings := rk.2, researchQueries := [env.research_topic],
             chatRequests := [req1] })
      | some initial_report =>
          let user2 := userPrompt2 initial_report
          let req2 := groqRequest env.model systemPrompt2 user2 temperature2
          match groq_chat env.chat_service env.model systemPrompt2 user2 temperature2 with
          | none =>
              (FlowResult.crashed,
               { warnings := rk.2, researchQueries := [env.research_topic],
                 chatRequests := [req1, req2] })
          | some enhanced_report =>
              (FlowResult.finished enhanced_report
                { data := enhanced_report
                  file_name := replaceSpaces env.research_topic ++ "_report.md"
                  mime := "text/markdown" },
               { warnings := rk.2, researchQueries := [env.research_topic],
                 chatRequests := [req1, req2] })

/-- A chat service that always answers with one fixed choice. -/
def constChat : ChatRequest → ChatResponse :=
  fun _ => { choices := [{ message := { role := "assistant", content := "report text" } }] }

/-- A chat service with an empty choice list. -/
def emptyChat : ChatRequest → ChatResponse := fun _ => { choices := [] }

/-- A successful Firecrawl response with an empty source list. -/
def okResponse : FirecrawlResponse :=
  { data := some { finalAnalysis := some "analysis", sources := some [] } }

/-- Concrete run whose research call raises an exception. -/
def envResearchFails : FlowEnv :=
  { groq_api_key := "g", firecrawl_api_key := "f",
    research_topic := "ai safety", model := "llama-3.1-70b-versatile",
    research_service := Except.error "boom", chat_service := emptyChat }

/-- Concrete run that reaches the download step. -/
def envFinishes : FlowEnv :=
  { groq_api_key := "g", firecrawl_api_key := "f",
    research_topic := "ai safety", model := "llama-3.1-70b-versatile",
    research_service := Except.ok okResponse, chat_service := constChat }

/-- Concrete run with an empty Groq key. -/
def envNoGroqKey : FlowEnv :=
  { groq_api_key := "", firecrawl_api_key := "f",
    research_topic := "ai safety", model := "llama-3.1-70b-versatile",
    research_service := Except.error "never reached", chat_service := emptyChat }

/-- Record whose summary is 400 letters followed by 5 spaces: 405
characters, stripped to 400. -/
def recTrailingSpaces : SourceRecord :=
  { summary := some (String.mk (List.replicate 400 'a' ++ List.replicate 5 ' ')) }

/-- Record whose summary is 401 letters (no surrounding whitespace). -/
def recLongSummary : SourceRecord :=
  { summary := some (String.mk (List.replicate 401 'a')) }

/-- Record whose summary has a space at position 399 followed by 100 more
letters: truncation at 400 makes the kept part end with a space. -/
def recSpaceAt399 : SourceRecord :=
  { summary := some (String.mk (List.replicate 399 'a' ++ ' ' :: List.replicate 100 'b')) }

/-- Record used for whitespace-only strip checks. -/
def recPadded : SourceRecord := { summary := some " hi " }

/-- Two small records for slicing counterexamples. -/
def recA : SourceRecord := { title := some "A" }

/-- Second small record for slicing counterexamples. -/
def recB : SourceRecord := { title := some "B" }

/-- Thirteen records, for the limit-12 witness. -/
def thirteenRecords : List SourceRecord := List.replicate 13 {}

/-- Python falsiness of an optional string field: absent, or present and
empty. -/
def pyFalsy (o : Option String) : Prop := o = none ∨ o = some ""

end DeepResearchGroq

namespace DeepResearchGroq

/-- Claim C7: for the empty source list, `_format_sources_for_prompt`
returns exactly the fixed sentinel string `"No sources."`, whatever the
limit is. -/
theorem c7_empty_sources_sentinel (limit : Int) :
    _format_sources_for_prompt [] limit = "No sources." := rfl

/-- Claim C6: `groq_chat` sends exactly two messages, a system message
carrying the system string followed by a user message carrying the user
string, and returns the first choice's message content. -/
theorem c6_chat_contract (service : ChatRequest → ChatResponse)
    (model system user : String) (temperature : Rat) :
    (groqRequest model system user temperature).messages =
      [{ role := "system", content := system },
       { role := "user", content := user }] ∧
    ∀ c rest,
      (service (groqRequest model system user temperature)).choices = c :: rest →
      groq_chat service model system user temperature = some c.message.content := by
  refine ⟨rfl, ?_⟩
  intro c rest h
  simp [groq_chat, h]

/-- Witness for C6 at a concrete service and concrete strings. -/
theorem c6_chat_contract_witness :
    (groqRequest "llama-3.1-70b-versatile" "sys" "usr" temperature1).messages =
      [{ role := "system", content := "sys" }, { role := "user", content := "usr" }] ∧
    groq_chat constChat "llama-3.1-70b-versatile" "sys" "usr" temperature1 =
      some "report text" :=
  ⟨(c6_chat_contract constChat "llama-3.1-70b-versatile" "sys" "usr" temperature1).1,
   (c6_chat_contract constChat "llama-3.1-70b-versatile" "sys" "usr" temperature1).2
     { message := { role := "assistant", content := "report text" } } [] rfl⟩

/-- Claim C2: if the research service raises, `run_deep_research` returns
success = false, the exception message verbatim, an empty final analysis
and an empty source list, and the main flow stops before any Groq call. -/
theorem c2_research_failure (env : FlowEnv) (msg : String)
    (hs : env.research_service = Except.error msg)
    (hg : env.groq_api_key ≠ "") (hf : env.firecrawl_api_key ≠ "") :
    run_deep_research env.research_service =
      { success := false, error := some msg, final_analysis := "", sources := [] } ∧
    (mainFlow env).1 = FlowResult.stoppedResearchFailure ∧
    (mainFlow env).2.chatRequests = [] := by
  have h1 : run_deep_research env.research_service =
      { success := false, error := some msg, final_analysis := "", sources := [] } := by
    rw [hs]
    rfl
  refine ⟨h1, ?_, ?_⟩ <;>
    simp [mainFlow, _require_keys, hg, hf, h1]

/-- Witness for C2 at a concrete failing environment. -/
theorem c2_research_failure_witness :
    run_deep_research envResearchFails.research_service =
      { success := false, error := some "boom", final_analysis := "", sources := [] } ∧
    (mainFlow envResearchFails).1 = FlowResult.stoppedResearchFailure ∧
    (mainFlow envResearchFails).2.chatRequests = [] :=
  c2_research_failure envResearchFails "boom" rfl (by decide) (by decide)

/-- Claim C5: if either credential string is empty, the run stops with a
warning shown and neither the research service nor the completion service
is invoked. -/
theorem c5_missing_keys (env : FlowEnv)
    (h : env.groq_api_key = "" ∨ env.firecrawl_api_key = "") :
    (mainFlow env).1 = FlowResult.stoppedMissingKeys ∧
    (mainFlow env).2.researchQueries = [] ∧
    (mainFlow env).2.chatRequests = [] ∧
    (mainFlow env).2.warnings ≠ [] := by
  by_cases hg : env.groq_api_key = ""
  · simp [mainFlow, _require_keys, hg]
  · have hf : env.firecrawl_api_key = "" := h.resolve_left hg
    simp [mainFlow, _require_keys, hg, hf]

/-- Witness for C5 at a concrete environment with an empty Groq key. -/
theorem c5_missing_keys_witness :
    (mainFlow envNoGroqKey).1 = FlowResult.stoppedMissingKeys ∧
    (mainFlow envNoGroqKey).2.researchQueries = [] ∧
    (mainFlow envNoGroqKey).2.chatRequests = [] ∧
    (mainFlow envNoGroqKey).2.warnings ≠ [] :=
  c5_missing_keys envNoGroqKey (Or.inl rfl)

/-- Claim C4: whenever the run reaches the download step, the downloaded
data is byte-for-byte the Enhancer's returned text, and the file name is
the topic with spaces replaced by underscores followed by
`_report.md`. -/
theorem c4_download_roundtrip (env : FlowEnv) (enhanced : String)
    (dl : Download) (tr : Trace)
    (h : mainFlow env = (FlowResult.finished enhanced dl, tr)) :
    dl.data = enhanced ∧
    dl.file_name = replaceSpaces env.research_topic ++ "_report.md" ∧
    dl.mime = "text/markdown" := by
  simp only [mainFlow] at h
  split at h
  · simp at h
  · split at h
    · simp at h
    · split at h
      · simp at h
      · split at h
        · simp at h
        · simp only [Prod.mk.injEq, FlowResult.finished.injEq] at h
          obtain ⟨⟨he, hd⟩, _⟩ := h
          subst he
          subst hd
          exact ⟨rfl, rfl, rfl⟩

/-- Witness for C4 at a concrete finishing environment. -/
theorem c4_download_roundtrip_witness :
    (Download.mk "report text" "ai_safety_report.md" "text/markdown").data =
      "report text" ∧
    (Download.mk "report text" "ai_safety_report.md" "text/markdown").file_name =
      replaceSpaces envFinishes.research_topic ++ "_report.md" ∧
    (Download.mk "report text" "ai_safety_report.md" "text/markdown").mime =
      "text/markdown" :=
  c4_download_roundtrip envFinishes "report text"
    (Download.mk "report text" "ai_safety_report.md" "text/markdown")
    (mainFlow envFinishes).2 (by rfl)

/-- Claim C9: the field fallbacks of the formatter are triggered by
falsiness (absence or emptiness), and in each alias pair the first-named
key wins when it is non-empty. -/
theorem c9_falsy_fallbacks (s : SourceRecord) :
    (pyFalsy s.title → pyFalsy s.name → renderTitle s = "Untitled") ∧
    (pyFalsy s.url → pyFalsy s.link → renderUrl s = "") ∧
    (pyFalsy s.summary → pyFalsy s.content → renderedSummary s = "") ∧
    (∀ v, s.title = some v → v ≠ "" → renderTitle s = v) ∧
    (∀ v, s.url = some v → v ≠ "" → renderUrl s = v) ∧
    (∀ v, s.summary = some v → v ≠ "" → rawSummary s = v) := by
  refine ⟨?_, ?_, ?_, ?_, ?_, ?_⟩
  · rintro (h1 | h1) (h2 | h2) <;> simp [renderTitle, orElseStr, h1, h2]
  · rintro (h1 | h1) (h2 | h2) <;> simp [renderUrl, orElseStr, h1, h2]
  · intro h1 h2
    have hraw : rawSummary s = "" := by
      rcases h1 with h1 | h1 <;> rcases h2 with h2 | h2 <;>
        simp [rawSummary, orElseStr, h1, h2]
    unfold renderedSummary
    rw [hraw]
    decide
  · intro v hv hn
    simp [renderTitle, orElseStr, hv, hn]
  · intro v hv hn
    simp [renderUrl, orElseStr, hv, hn]
  · intro v hv hn
    simp [rawSummary, orElseStr, hv, hn]

/-- Witness for C9 at concrete records. -/
theorem c9_falsy_fallbacks_witness :
    renderTitle {} = "Untitled" ∧ renderUrl {} = "" ∧
    renderedSummary {} = "" ∧ renderTitle recA = "A" :=
  ⟨(c9_falsy_fallbacks {}).1 (Or.inl rfl) (Or.inl rfl),
   (c9_falsy_fallbacks {}).2.1 (Or.inl rfl) (Or.inl rfl),
   (c9_falsy_fallbacks {}).2.2.1 (Or.inl rfl) (Or.inl rfl),
   (c9_falsy_fallbacks recA).2.2.2.1 "A" rfl (by decide)⟩

/-- Counterexample to Claim C10 as stated: with the negative limit `-1`
and a two-element source list the formatter returns a non-empty digest
(Python slicing drops only the last element), not the empty string. -/
theorem c10_counterexample :
    (-1 : Int) ≤ 0 ∧ _format_sources_for_prompt [recA, recB] (-1) ≠ "" := by
  decide

/-- Claim C10 (amended): for every non-empty source list, limit `0`
yields the empty string, not the sentinel. -/
theorem c10_zero_limit (sources : List SourceRecord) (h : sources ≠ []) :
    _format_sources_for_prompt sources 0 = "" ∧
    _format_sources_for_prompt sources 0 ≠ "No sources." := by
  match sources, h with
  | a :: t, _ =>
    have h0 : _format_sources_for_prompt (a :: t) 0 = "" := rfl
    exact ⟨h0, by rw [h0]; decide⟩

/-- Witness for the amended C10 at a concrete one-element list. -/
theorem c10_zero_limit_witness :
    _format_sources_for_prompt [recA] 0 = "" ∧
    _format_sources_for_prompt [recA] 0 ≠ "No sources." :=
  c10_zero_limit [recA] (by decide)

/-- The numbered-entry list is as long as the record list. -/
theorem numberEntries_length (k : Nat) (l : List SourceRecord) :
    (numberEntries k l).length = l.length := by
  induction l generalizing k with
  | nil => rfl
  | cons a t ih => simp [numberEntries, ih]

/-- The i-th numbered entry renders the i-th record with number `k + i`. -/
theorem numberEntries_getD (l : List SourceRecord) (k i : Nat)
    (h : i < l.length) :
    (numberEntries k l).getD i "" = entry (k + i) (l.getD i {}) := by
  induction l generalizing k i with
  | nil => simp at h
  | cons a t ih =>
    cases i with
    | zero => simp [numberEntries]
    | succ n =>
      have hn : n < t.length := by simpa using h
      simp only [numberEntries, List.getD_cons_succ]
      rw [ih (k + 1) n hn]
      congr 1
      omega

/-- `getD` looks through `take` below the cut. -/
theorem getD_take_of_lt (l : List α) (d : α) (n i : Nat) (h : i < n) :
    (l.take n).getD i d = l.getD i d := by
  induction l generalizing n i with
  | nil => simp
  | cons a t ih =>
    cases n with
    | zero => omega
    | succ m =>
      cases i with
      | zero => simp
      | succ j => simpa using ih m j (by omega)

/-- Claim C3: for more than 12 sources at the default limit, the digest
is the blank-line join of exactly 12 entries, the i-th being the i-th
source from the front numbered `i + 1`. -/
theorem c3_limit_twelve (sources : List SourceRecord)
    (h : 12 < sources.length) :
    _format_sources_for_prompt sources =
      String.intercalate "\n\n" (numberEntries 1 (sources.take 12)) ∧
    (numberEntries 1 (sources.take 12)).length = 12 ∧
    ∀ i, i < 12 →
      (numberEntries 1 (sources.take 12)).getD i "" =
        entry (i + 1) (sources.getD i {}) := by
  have hne : sources.isEmpty = false := by
    cases sources with
    | nil => simp at h
    | cons a t => rfl
  have hslice : pySliceTo sources (12 : Int) = sources.take 12 := by
    unfold pySliceTo
    rw [if_pos (by decide)]
    rfl
  refine ⟨?_, ?_, ?_⟩
  · simp [_format_sources_for_prompt, hne, hslice]
  · rw [numberEntries_length, List.length_take]
    omega
  · intro i hi
    have hlen : i < (sources.take 12).length := by
      rw [List.length_take]
      omega
    rw [numberEntries_getD _ _ _ hlen, getD_take_of_lt _ _ _ _ hi,
      Nat.add_comm 1 i]

/-- Witness for C3 at a concrete thirteen-element list. -/
theorem c3_limit_twelve_witness :
    (numberEntries 1 (thirteenRecords.take 12)).length = 12 ∧
    (numberEntries 1 (thirteenRecords.take 12)).getD 0 "" =
      entry 1 (thirteenRecords.getD 0 {}) :=
  ⟨(c3_limit_twelve thirteenRecords (by decide)).2.1,
   (c3_limit_twelve thirteenRecords (by decide)).2.2 0 (by decide)⟩

/-- A character surviving at the head of a `dropWhile` fails the
predicate. -/
theorem head?_dropWhileChar (p : Char → Bool) (l : List Char) (c : Char)
    (h : (l.dropWhile p).head? = some c) : p c = false := by
  have h2 := List.head?_dropWhile_not p l
  rw [h] at h2
  exact h2

/-- Dropping a final run (via double reversal) leaves an initial segment
of the list. -/
theorem exists_dropWhile_rev (p : Char → Bool) (l : List Char) :
    ∃ u, (l.reverse.dropWhile p).reverse ++ u = l := by
  obtain ⟨u, hu⟩ := List.dropWhile_suffix (l := l.reverse) p
  refine ⟨u.reverse, ?_⟩
  have h2 := congrArg List.reverse hu
  rw [List.reverse_append, List.reverse_reverse] at h2
  exact h2

/-- The head survives appending on the right. -/
theorem head?_append_of_head? (l u : List α) (c : α)
    (h : l.head? = some c) : (l ++ u).head? = some c := by
  cases l with
  | nil => simp at h
  | cons a t => simpa using h

/-- Unfolding of the character list of `pyStrip`. -/
theorem pyStrip_data (s : String) :
    (pyStrip s).data =
      ((s.data.dropWhile Char.isWhitespace).reverse.dropWhile
        Char.isWhitespace).reverse := rfl

/-- A stripped string never starts with whitespace. -/
theorem pyStrip_head (s : String) (c : Char)
    (h : (pyStrip s).data.head? = some c) : c.isWhitespace = false := by
  rw [pyStrip_data] at h
  obtain ⟨u, hu⟩ :=
    exists_dropWhile_rev Char.isWhitespace (s.data.dropWhile Char.isWhitespace)
  have hA : (s.data.dropWhile Char.isWhitespace).head? = some c := by
    rw [← hu]
    exact head?_append_of_head? _ u c h
  exact head?_dropWhileChar _ _ _ hA

/-- A stripped string never ends with whitespace. -/
theorem pyStrip_getLast (s : String) (c : Char)
    (h : (pyStrip s).data.getLast? = some c) : c.isWhitespace = false := by
  rw [pyStrip_data, List.getLast?_reverse] at h
  exact head?_dropWhileChar _ _ _ h

/-- Unfolding of the character list of `pyTake`. -/
theorem pyTake_data (s : String) (n : Nat) :
    (pyTake s n).data = s.data.take n := rfl

/-- A string's length is the length of its character list. -/
theorem string_length_data (s : String) : s.length = s.data.length := rfl

/-- The ellipsis marker is the single character `…`. -/
theorem ellipsis_data : ("…" : String).data = ['…'] := rfl

/-- Claim C8 (amended): the summary is stripped before the length check;
the rendered summary never starts with whitespace; the stripped summary
never ends with whitespace; and when the stripped summary is at most 400
characters the rendered summary is exactly the stripped summary, with no
truncation or ellipsis - in particular for originals longer than 400
characters whose stripped form fits. -/
theorem c8_strip_semantics (s : SourceRecord) :
    (∀ c, (renderedSummary s).data.head? = some c → c.isWhitespace = false) ∧
    (∀ c, (pyStrip (rawSummary s)).data.getLast? = some c →
      c.isWhitespace = false) ∧
    ((pyStrip (rawSummary s)).length ≤ 400 →
      renderedSummary s = pyStrip (rawSummary s)) := by
  refine ⟨?_, fun c h => pyStrip_getLast _ c h, ?_⟩
  · intro c h
    by_cases h4 : 400 < (pyStrip (rawSummary s)).length
    · unfold renderedSummary at h
      rw [if_pos h4, String.data_append, pyTake_data, ellipsis_data] at h
      rcases hL : (pyStrip (rawSummary s)).data with _ | ⟨a, rest⟩
      · rw [string_length_data, hL] at h4
        simp at h4
      · have htake : (a :: rest).take 400 = a :: rest.take 399 := rfl
        rw [hL, htake, List.cons_append, List.head?_cons] at h
        have hac : a = c := Option.some.inj h
        have hh : (pyStrip (rawSummary s)).data.head? = some c := by
          rw [hL, List.head?_cons, hac]
        exact pyStrip_head _ _ hh
    · unfold renderedSummary at h
      rw [if_neg h4] at h
      exact pyStrip_head _ _ h
  · intro hle
    unfold renderedSummary
    rw [if_neg (by omega)]

/-- Witness for the amended C8 at a concrete padded summary. -/
theorem c8_strip_semantics_witness :
    Char.isWhitespace 'h' = false ∧
    renderedSummary recPadded = pyStrip (rawSummary recPadded) :=
  ⟨(c8_strip_semantics recPadded).1 'h' (by decide),
   (c8_strip_semantics recPadded).2.2 (by decide)⟩

/-- Counterexample to Claim C8 as stated: with a space at index 399 of a
500-character summary, the rendered summary is truncated and its part
before the ellipsis ends with a whitespace character. -/
theorem c8_counterexample :
    (renderedSummary recSpaceAt399).length = 401 ∧
    (renderedSummary recSpaceAt399).data.getD 399 'x' = ' ' ∧
    (renderedSummary recSpaceAt399).data.getD 400 'x' = '…' ∧
    Char.isWhitespace ' ' = true := by
  decide

/-- Counterexample to Claim C1 as stated: a 405-character summary (400
letters and 5 trailing spaces) is longer than 400 characters, yet its
rendered form is the 400-character stripped summary, not 401 characters. -/
theorem c1_counterexample :
    400 < (rawSummary recTrailingSpaces).length ∧
    (renderedSummary recTrailingSpaces).length ≠ 401 := by
  decide

/-- Claim C1 (amended): when the stripped summary is longer than 400
characters, the rendered summary is its first 400 characters followed by
one ellipsis character - 401 characters in total - and the part before
the ellipsis is a prefix of the stripped summary. -/
theorem c1_summary_truncation (s : SourceRecord)
    (h : 400 < (pyStrip (rawSummary s)).length) :
    renderedSummary s = pyTake (pyStrip (rawSummary s)) 400 ++ "…" ∧
    (renderedSummary s).length = 401 ∧
    (renderedSummary s).data.take 400 <+: (pyStrip (rawSummary s)).data := by
  have he : renderedSummary s = pyTake (pyStrip (rawSummary s)) 400 ++ "…" := by
    unfold renderedSummary
    rw [if_pos h]
  have h40 : ((pyStrip (rawSummary s)).data.take 400).length = 400 := by
    rw [List.length_take]
    rw [string_length_data] at h
    omega
  refine ⟨he, ?_, ?_⟩
  · rw [he, String.length_append, string_length_data, pyTake_data, h40]
    decide
  · rw [he, String.data_append, pyTake_data, ellipsis_data,
       List.take_left' h40]
    exact ⟨(pyStrip (rawSummary s)).data.drop 400,
      List.take_append_drop 400 _⟩

/-- Witness for the amended C1 at a concrete 401-letter summary. -/
theorem c1_summary_truncation_witness :
    400 < (pyStrip (rawSummary recLongSummary)).length ∧
    (renderedSummary recLongSummary).length = 401 :=
  ⟨by decide, (c1_summary_truncation recLongSummary (by decide)).2.1⟩

end DeepResearchGroq
